import Mathlib

/-!
Shallow embedding of the ExpensiveTracker API core services
(`BudgetsService`, `CategoriesService`, `ExpensesService`, `StatisticsService`)
over an explicit store state, together with theorems settling the spec claims.

Conventions:
* Dates (`Date` values) are epoch milliseconds (`Int`); the services parse
  `YYYY-MM-DD` strings, modelled as UTC-midnight calendar dates (`Civil`).
* Monetary amounts are exact rationals (`ℚ`); JS `Math.round` is half-up.
* The store (`State`) is lists of rows; Prisma `findFirst`/`findUnique`
  become `List.find?`, `create` appends, `update` maps, `delete` filters.
* Each mutating service method returns the response (`Except AppError _`)
  together with the store state after the call; a thrown exception leaves
  the store untouched exactly when no write was issued before the throw.
-/

namespace ExpensiveTracker

/-! ## Data model (rows as used by the services) -/

structure Category where
  id : String
  name : String
  icon : Option String := none
  color : Option String := none
  userId : Option String := none
  isDefault : Bool := false
deriving Repr, DecidableEq

structure Expense where
  id : String
  name : String := ""
  amount : ℚ
  categoryId : String
  userId : String
  date : Int
  createdAt : Int := 0
  notes : Option String := none
deriving Repr, DecidableEq

inductive PeriodType where
  | WEEKLY
  | MONTHLY
deriving Repr, DecidableEq

structure Budget where
  id : String
  userId : String
  amount : ℚ
  periodType : PeriodType
  startDate : Int
  endDate : Int
  isActive : Bool := true
deriving Repr, DecidableEq

structure State where
  categories : List Category := []
  expenses : List Expense := []
  budgets : List Budget := []
deriving Repr, DecidableEq

/-- The NestJS exceptions thrown by the services.  Both `BadRequestException`
messages of `BudgetsService.create` are represented, so that the invalid-range
and the overlapping-budget rejections stay distinguishable. -/
inductive AppError where
  | notFound
  | forbidden
  | conflict
  | badRequestInvalidDateRange
  | badRequestOverlappingBudget
deriving Repr, DecidableEq

/-- Both budget rejections surface as HTTP 400 `BadRequestException`. -/
def AppError.isBadRequest : AppError → Bool
  | .badRequestInvalidDateRange => true
  | .badRequestOverlappingBudget => true
  | _ => false

deriving instance DecidableEq for Except

/-- `true` iff the call threw (the `Except` is an `error`). -/
def isErr : Except AppError α × State → Bool
  | (.error _, _) => true
  | (.ok _, _) => false

/-! ## Calendar model

`new Date("YYYY-MM-DD")` is UTC midnight of that civil date; the services run
with a UTC clock, so `getDate`/`setDate`/`getMonth`/`setMonth` act on the
civil date itself.  `daysFromCivil` is the standard days-from-civil algorithm
(day 0 = 1970-01-01); all arguments in the claims are years ≥ 1, so every
division below acts on nonnegative operands. -/

/-- A calendar date as written in an ISO `YYYY-MM-DD` string (month 1-based). -/
structure Civil where
  year : Int
  month : Int
  day : Int
deriving Repr, DecidableEq

def msPerDay : Int := 86400000

/-- Day number (1970-01-01 = 0) of the civil date `y-m-d`, month 1-based. -/
def daysFromCivil (y m d : Int) : Int :=
  let yAdj : Int := if m ≤ 2 then y - 1 else y
  let era : Int := (if 0 ≤ yAdj then yAdj else yAdj - 399) / 400
  let yoe : Int := yAdj - era * 400
  let mp : Int := (m + 9) % 12
  let doy : Int := (153 * mp + 2) / 5 + d - 1
  let doe : Int := yoe * 365 + yoe / 4 - yoe / 100 + doy
  era * 146097 + doe - 719468

/-- Epoch milliseconds of UTC midnight of a civil date (what
`new Date("YYYY-MM-DD")` yields). -/
def msOfCivil (c : Civil) : Int := msPerDay * daysFromCivil c.year c.month c.day

/-- JS `MakeDay(year, month0, day)` (month0 0-based, both month0 and day may
overflow their ranges): month overflow carries into the year, and a day
beyond the target month's length rolls into the following months. -/
def jsMakeDay (y month0 d : Int) : Int :=
  daysFromCivil (y + month0 / 12) (month0 % 12 + 1) 1 + (d - 1)

/-- `end = new Date(start); end.setMonth(end.getMonth() + 1)` for a date at
UTC midnight: `setMonth` re-runs `MakeDay` with the incremented 0-based
month and the unchanged day-of-month. -/
def setMonthPlusOneMs (c : Civil) : Int :=
  msPerDay * jsMakeDay c.year ((c.month - 1) + 1) c.day

/-- The default end date computed by `BudgetsService.create` when
`endDate` is omitted: `setDate(getDate()+7)` / `setMonth(getMonth()+1)`
followed by `setDate(getDate()-1)`.  `setDate(getDate()±k)` on a UTC
midnight date is exactly `±k` days in milliseconds, because `MakeDay` is
linear in its day argument. -/
def defaultEndMs (periodType : PeriodType) (start : Civil) : Int :=
  match periodType with
  | .WEEKLY => msOfCivil start + 7 * msPerDay - msPerDay
  | .MONTHLY => setMonthPlusOneMs start - msPerDay

/-! ## Rounding helpers -/

/-- JS `Math.round`: half-up, i.e. `⌊x + 1/2⌋`. -/
def jsRound (q : ℚ) : Int := ⌊q + 1 / 2⌋

/-- The services' 2-decimal rounding `Math.round(x * 100) / 100`. -/
def round2 (q : ℚ) : ℚ := (jsRound (q * 100) : ℚ) / 100

/-! ## BudgetsService -/

/-- `CreateBudgetDto`: `startDate`/`endDate` are `YYYY-MM-DD` strings,
`endDate` optional. -/
structure CreateBudgetDto where
  amount : ℚ
  periodType : PeriodType
  startDate : Civil
  endDate : Option Civil := none

/-- The `where` predicate of the overlap `findFirst` in
`BudgetsService.create` (lines 38–54): same owner, active, and one of the
three interval disjuncts against the new `[start, end]`. -/
def budgetOverlapPred (userId : String) (start endMs : Int) (b : Budget) : Bool :=
  b.userId == userId && b.isActive &&
    ((decide (b.startDate ≤ start) && decide (start ≤ b.endDate)) ||
     (decide (b.startDate ≤ endMs) && decide (endMs ≤ b.endDate)) ||
     (decide (start ≤ b.startDate) && decide (b.endDate ≤ endMs)))

/-- The end date `BudgetsService.create` works with: the parsed `endDate`
when given, otherwise the period-derived default. -/
def effectiveEndMs (dto : CreateBudgetDto) : Int :=
  match dto.endDate with
  | some e => msOfCivil e
  | none => defaultEndMs dto.periodType dto.startDate

/-- `BudgetsService.create`.  `newId` stands for the id generated by the
store; the schema defaults `isActive` to `true` for new rows. -/
def createBudget (userId : String) (dto : CreateBudgetDto) (newId : String)
    (s : State) : Except AppError Budget × State :=
  let start := msOfCivil dto.startDate
  let endMs := effectiveEndMs dto
  if endMs ≤ start then
    (.error .badRequestInvalidDateRange, s)
  else
    match s.budgets.find? (budgetOverlapPred userId start endMs) with
    | some _ => (.error .badRequestOverlappingBudget, s)
    | none =>
      let b : Budget :=
        { id := newId, userId := userId, amount := dto.amount,
          periodType := dto.periodType, startDate := start, endDate := endMs,
          isActive := true }
      (.ok b, { s with budgets := s.budgets ++ [b] })

/-- The `where` predicate of `findCurrent`'s `findFirst`: owner's active
budget whose interval contains `now`. -/
def budgetCurrentPred (userId : String) (now : Int) (b : Budget) : Bool :=
  b.userId == userId && b.isActive &&
    decide (b.startDate ≤ now) && decide (now ≤ b.endDate)

/-- The expense query both `findCurrent` and `getStatus` run: the owner's
expenses dated within the budget interval (any category). -/
def budgetExpensePred (userId : String) (startMs endMs : Int) (e : Expense) : Bool :=
  e.userId == userId && decide (startMs ≤ e.date) && decide (e.date ≤ endMs)

/-- The budget row spread together with the computed consumption fields. -/
structure BudgetStatus where
  budget : Budget
  spentAmount : ℚ
  remainingAmount : ℚ
  percentage : ℚ
  daysRemaining : Int
  isOverBudget : Bool
deriving Repr, DecidableEq

/-- The augmentation shared by `findCurrent` (lines 100–135) and
`getStatus` (lines 153–189): `spentAmount` is the `reduce` over the queried
expenses, `percentage` is rounded to 2 decimals, `daysRemaining` is
`Math.max(0, Math.ceil((endDate − now) / 86400000))`. -/
def augmentBudget (userId : String) (now : Int) (s : State) (b : Budget) :
    BudgetStatus :=
  let spent := (s.expenses.filter (budgetExpensePred userId b.startDate b.endDate)).foldl
    (fun sum e => sum + e.amount) 0
  let remaining := b.amount - spent
  let rawPercentage : ℚ := if 0 < b.amount then spent / b.amount * 100 else 0
  let daysRemaining : Int :=
    max 0 ⌈((b.endDate - now : Int) : ℚ) / (1000 * 60 * 60 * 24)⌉
  { budget := b, spentAmount := spent, remainingAmount := remaining,
    percentage := (jsRound (rawPercentage * 100) : ℚ) / 100,
    daysRemaining := daysRemaining,
    isOverBudget := decide (b.amount < spent) }

/-- `BudgetsService.findCurrent` with the ambient clock made explicit. -/
def findCurrent (userId : String) (now : Int) (s : State) : Option BudgetStatus :=
  (s.budgets.find? (budgetCurrentPred userId now)).map (augmentBudget userId now s)

/-- `BudgetsService.findOne`: `findFirst` on id and owner. -/
def findOneBudget (id userId : String) (s : State) : Except AppError Budget :=
  match s.budgets.find? (fun b => b.id == id && b.userId == userId) with
  | none => .error .notFound
  | some b => .ok b

/-- `BudgetsService.getStatus`. -/
def getStatus (id userId : String) (now : Int) (s : State) :
    Except AppError BudgetStatus :=
  match findOneBudget id userId s with
  | .error e => .error e
  | .ok b => .ok (augmentBudget userId now s b)

/-- `UpdateBudgetDto`: every field optional. -/
structure UpdateBudgetDto where
  amount : Option ℚ := none
  periodType : Option PeriodType := none
  startDate : Option Civil := none
  endDate : Option Civil := none
  isActive : Option Bool := none

/-- The row produced by `prisma.budget.update` for `BudgetsService.update`:
given fields replace existing ones (dates already parsed to `Date`). -/
def applyBudgetUpdate (dto : UpdateBudgetDto) (b : Budget) : Budget :=
  { b with
    amount := dto.amount.getD b.amount,
    periodType := dto.periodType.getD b.periodType,
    startDate := (dto.startDate.map msOfCivil).getD b.startDate,
    endDate := (dto.endDate.map msOfCivil).getD b.endDate,
    isActive := dto.isActive.getD b.isActive }

/-- `BudgetsService.update` (lines 192–228): `findUnique` on id, owner
check, then the date-range check on the merged `(existing ∪ new)` start/end;
no overlap re-check. -/
def updateBudget (id userId : String) (dto : UpdateBudgetDto) (s : State) :
    Except AppError Budget × State :=
  match s.budgets.find? (fun b => b.id == id) with
  | none => (.error .notFound, s)
  | some b =>
    if b.userId == userId then
      let start := (dto.startDate.map msOfCivil).getD b.startDate
      let endMs := (dto.endDate.map msOfCivil).getD b.endDate
      if endMs ≤ start then
        (.error .badRequestInvalidDateRange, s)
      else
        (.ok (applyBudgetUpdate dto b),
         { s with budgets := (s.budgets.map
            (fun x => if x.id == id then applyBudgetUpdate dto x else x)) })
    else (.error .forbidden, s)

/-- `BudgetsService.remove`. -/
def removeBudget (id userId : String) (s : State) :
    Except AppError Unit × State :=
  match s.budgets.find? (fun b => b.id == id) with
  | none => (.error .notFound, s)
  | some b =>
    if b.userId == userId then
      (.ok (), { s with budgets := s.budgets.filter (fun b => !(b.id == id)) })
    else (.error .forbidden, s)

/-! ## CategoriesService -/

structure CreateCategoryDto where
  name : String
  icon : Option String := none
  color : Option String := none

/-- `CategoriesService.create` (part_001 lines 16–35): conflict when a
category of the same name exists for the caller or with a `null` owner. -/
def createCategory (userId : String) (dto : CreateCategoryDto) (newId : String)
    (s : State) : Except AppError Category × State :=
  match s.categories.find?
      (fun c => c.name == dto.name && (c.userId == some userId || c.userId == none)) with
  | some _ => (.error .conflict, s)
  | none =>
    let c : Category :=
      { id := newId, name := dto.name, icon := dto.icon, color := dto.color,
        userId := some userId, isDefault := false }
    (.ok c, { s with categories := s.categories ++ [c] })

structure UpdateCategoryDto where
  name : Option String := none
  icon : Option String := none
  color : Option String := none

def applyCategoryUpdate (dto : UpdateCategoryDto) (c : Category) : Category :=
  { c with
    name := dto.name.getD c.name,
    icon := match dto.icon with | some i => some i | none => c.icon,
    color := match dto.color with | some i => some i | none => c.color }

/-- `CategoriesService.update` (part_001 lines 61–98).  The rename collision
check runs under `if (updateCategoryDto.name)`, so a JS-falsy empty string
skips it; it scans only the caller's own categories (`userId: userId`),
excluding the updated row (`NOT: { id }`). -/
def updateCategory (id userId : String) (dto : UpdateCategoryDto) (s : State) :
    Except AppError Category × State :=
  match s.categories.find? (fun c => c.id == id) with
  | none => (.error .notFound, s)
  | some c =>
    if c.isDefault || !(c.userId == some userId) then (.error .forbidden, s)
    else
      let collision := match dto.name with
        | some n =>
          if n == "" then false
          else (s.categories.find?
            (fun (x : Category) =>
              x.name == n && x.userId == some userId && !(x.id == id))).isSome
        | none => false
      if collision then (.error .conflict, s)
      else
        (.ok (applyCategoryUpdate dto c),
         { s with categories := (s.categories.map
            (fun x => if x.id == id then applyCategoryUpdate dto x else x)) })

/-- `CategoriesService.remove` (part_001 lines 100–135): not-found, then the
default guard (before any ownership check), then ownership, then the
`_count.expenses` referential guard, then the delete. -/
def removeCategory (id userId : String) (s : State) :
    Except AppError Unit × State :=
  match s.categories.find? (fun c => c.id == id) with
  | none => (.error .notFound, s)
  | some c =>
    if c.isDefault then (.error .forbidden, s)
    else if !(c.userId == some userId) then (.error .forbidden, s)
    else if 0 < (s.expenses.filter (fun e => e.categoryId == id)).length then
      (.error .conflict, s)
    else
      (.ok (), { s with categories := s.categories.filter (fun c => !(c.id == id)) })

/-! ## ExpensesService -/

/-- A category is visible to a user when it is their own or a (global,
ownerless) default — the `OR: [{ userId }, { userId: null, isDefault: true }]`
predicate used by the expense category checks. -/
def categoryVisiblePred (userId : String) (c : Category) : Bool :=
  c.userId == some userId || (c.userId == none && c.isDefault)

structure CreateExpenseDto where
  name : String
  amount : ℚ
  categoryId : String
  date : Option Civil := none
  notes : Option String := none

/-- `ExpensesService.create`: validates category visibility, defaults the
date to the current instant when omitted. -/
def createExpense (userId : String) (dto : CreateExpenseDto) (newId : String)
    (now : Int) (s : State) : Except AppError Expense × State :=
  match s.categories.find?
      (fun c => c.id == dto.categoryId && categoryVisiblePred userId c) with
  | none => (.error .notFound, s)
  | some _ =>
    let e : Expense :=
      { id := newId, name := dto.name, amount := dto.amount,
        categoryId := dto.categoryId, userId := userId,
        date := (dto.date.map msOfCivil).getD now, createdAt := now,
        notes := dto.notes }
    (.ok e, { s with expenses := s.expenses ++ [e] })

inductive SortBy where
  | date
  | amount
  | name
  | createdAt
deriving Repr, DecidableEq

inductive SortOrder where
  | asc
  | desc
deriving Repr, DecidableEq

/-- `QueryExpenseDto` after validation/defaulting (`page ≥ 1`, `limit ≥ 1`);
the date filters are parsed `YYYY-MM-DD` bounds in milliseconds. -/
structure QueryExpenseDto where
  page : Nat := 1
  limit : Nat := 10
  sortBy : SortBy := .date
  order : SortOrder := .desc
  categoryId : Option String := none
  startDate : Option Int := none
  endDate : Option Int := none
  minAmount : Option ℚ := none
  maxAmount : Option ℚ := none

/-- The `where` object `ExpensesService.findAll` builds field by field. -/
def expenseWherePred (userId : String) (q : QueryExpenseDto) (e : Expense) : Bool :=
  e.userId == userId &&
  (match q.categoryId with | some c => e.categoryId == c | none => true) &&
  (match q.startDate with | some d => decide (d ≤ e.date) | none => true) &&
  (match q.endDate with | some d => decide (e.date ≤ d) | none => true) &&
  (match q.minAmount with | some a => decide (a ≤ e.amount) | none => true) &&
  (match q.maxAmount with | some a => decide (e.amount ≤ a) | none => true)

/-- The database ordering for `orderBy: { [sortBy]: order }`. -/
def expenseSortLe (sortBy : SortBy) (order : SortOrder) (a b : Expense) : Bool :=
  let keyLe :=
    match sortBy with
    | .date => decide (a.date ≤ b.date)
    | .amount => decide (a.amount ≤ b.amount)
    | .name => decide (a.name ≤ b.name)
    | .createdAt => decide (a.createdAt ≤ b.createdAt)
  let keyGe :=
    match sortBy with
    | .date => decide (b.date ≤ a.date)
    | .amount => decide (b.amount ≤ a.amount)
    | .name => decide (b.name ≤ a.name)
    | .createdAt => decide (b.createdAt ≤ a.createdAt)
  match order with
  | .asc => keyLe
  | .desc => keyGe

structure Pagination where
  total : Nat
  page : Nat
  limit : Nat
  totalPages : Nat
deriving Repr, DecidableEq

/-- `ExpensesService.findAll` (dto file lines 175–246).  `maxLimit` stands
for `APP_CONSTANTS.PAGINATION.MAX_LIMIT`, whose defining constants file is
not among the sources; the spec only states `limit ≤ serverMax`, so the
constant is kept as a parameter.  `skip` uses the raw requested `limit`,
`take` the capped one, exactly as in the source. -/
def findAllExpenses (userId : String) (q : QueryExpenseDto) (maxLimit : Nat)
    (s : State) : List Expense × Pagination :=
  let skip := (q.page - 1) * q.limit
  let take := min q.limit maxLimit
  let matching := s.expenses.filter (expenseWherePred userId q)
  let sorted := matching.mergeSort (expenseSortLe q.sortBy q.order)
  let total := matching.length
  ((sorted.drop skip).take take,
   { total := total, page := q.page, limit := take,
     totalPages := (total + take - 1) / take })

structure UpdateExpenseDto where
  name : Option String := none
  amount : Option ℚ := none
  categoryId : Option String := none
  date : Option Civil := none
  notes : Option String := none

def applyExpenseUpdate (dto : UpdateExpenseDto) (e : Expense) : Expense :=
  { e with
    name := dto.name.getD e.name,
    amount := dto.amount.getD e.amount,
    categoryId := dto.categoryId.getD e.categoryId,
    date := (dto.date.map msOfCivil).getD e.date,
    notes := match dto.notes with | some n => some n | none => e.notes }

/-- `ExpensesService.update`: not-found, ownership, then category
visibility when `categoryId` is given, then the write. -/
def updateExpense (id userId : String) (dto : UpdateExpenseDto) (s : State) :
    Except AppError Expense × State :=
  match s.expenses.find? (fun e => e.id == id) with
  | none => (.error .notFound, s)
  | some e =>
    if e.userId == userId then
      let categoryOk := match dto.categoryId with
        | some cid =>
          (s.categories.find?
            (fun (c : Category) => c.id == cid && categoryVisiblePred userId c)).isSome
        | none => true
      if categoryOk then
        (.ok (applyExpenseUpdate dto e),
         { s with expenses := (s.expenses.map
            (fun (x : Expense) => if x.id == id then applyExpenseUpdate dto x else x)) })
      else (.error .notFound, s)
    else (.error .forbidden, s)

/-- `ExpensesService.remove`. -/
def removeExpense (id userId : String) (s : State) :
    Except AppError Unit × State :=
  match s.expenses.find? (fun e => e.id == id) with
  | none => (.error .notFound, s)
  | some e =>
    if e.userId == userId then
      (.ok (), { s with expenses := s.expenses.filter (fun e => !(e.id == id)) })
    else (.error .forbidden, s)

/-! ## StatisticsService.getCategoryStatistics -/

/-- The `category` snapshot prisma's `include: { category: true }` joins
onto an expense: the row whose `id` equals the expense's `categoryId`
(which therefore is also the snapshot's `id`), with `null` icon/color
mapped to `''` by the service. -/
structure CategorySnapshot where
  id : String
  name : String
  icon : String
  color : String
deriving Repr, DecidableEq

def snapshotOfKey (s : State) (categoryId : String) : CategorySnapshot :=
  match s.categories.find? (fun c => c.id == categoryId) with
  | some c =>
    { id := categoryId, name := c.name, icon := c.icon.getD "",
      color := c.color.getD "" }
  | none => { id := categoryId, name := "", icon := "", color := "" }

structure CategoryBreakdown where
  category : CategorySnapshot
  total : ℚ
  count : Nat
  percentage : ℚ
deriving Repr, DecidableEq

/-- One step of the `categoryMap` loop in `getCategoryStatistics`: a JS
`Map` keyed by `categoryId` preserves first-insertion order, so an existing
entry is updated in place and a new one is appended. -/
def insertBreakdown (s : State) (acc : List CategoryBreakdown) (e : Expense) :
    List CategoryBreakdown :=
  if acc.any (fun x => x.category.id == e.categoryId) then
    acc.map (fun x =>
      if x.category.id == e.categoryId then
        { x with total := x.total + e.amount, count := x.count + 1 }
      else x)
  else
    acc ++ [{ category := snapshotOfKey s e.categoryId, total := e.amount,
              count := 1, percentage := 0 }]

/-- The optional date-range part of the statistics `where` object. -/
def statsRangePred (startDate endDate : Option Int) (e : Expense) : Bool :=
  (match startDate with | some d => decide (d ≤ e.date) | none => true) &&
  (match endDate with | some d => decide (e.date ≤ d) | none => true)

/-- The expenses `getCategoryStatistics` queries: the owner's, restricted
to the optional `[startDate, endDate]` bounds. -/
def statsExpenses (userId : String) (startDate endDate : Option Int)
    (s : State) : List Expense :=
  s.expenses.filter (fun e => e.userId == userId && statsRangePred startDate endDate e)

/-- `StatisticsService.getCategoryStatistics` (lines 235–291): group by
`categoryId`, accumulate the grand total, attach percentages, then sort by
total descending (JS `Array.prototype.sort` is stable, as is `mergeSort`). -/
def getCategoryStatistics (userId : String) (startDate endDate : Option Int)
    (s : State) : List CategoryBreakdown :=
  let expenses := statsExpenses userId startDate endDate s
  let grouped := expenses.foldl (insertBreakdown s) []
  let total := expenses.foldl (fun t e => t + e.amount) 0
  let withPct := grouped.map (fun x =>
    { x with percentage :=
        if 0 < total then (jsRound (x.total / total * 100 * 100) : ℚ) / 100 else 0 })
  withPct.mergeSort (fun a b => decide (b.total ≤ a.total))

/-- The sum of the amounts of the expenses of category `k` in `es`. -/
def keyTotal (k : String) (es : List Expense) : ℚ :=
  ((es.filter (fun e => e.categoryId == k)).map Expense.amount).sum

/-- The number of expenses of category `k` in `es`. -/
def keyCount (k : String) (es : List Expense) : Nat :=
  (es.filter (fun e => e.categoryId == k)).length

/-- The entry of the breakdown list with category id `k`. -/
def findBreakdown (k : String) (l : List CategoryBreakdown) :
    Option CategoryBreakdown :=
  l.find? (fun x => x.category.id == k)

/-- An active January budget of user `U` (for the update-overlap scenario). -/
def demoBudgetJan : Budget :=
  { id := "b1", userId := "U", amount := 100, periodType := .MONTHLY,
    startDate := msOfCivil ⟨2024, 1, 1⟩, endDate := msOfCivil ⟨2024, 1, 31⟩ }

/-- An active February budget of user `U`, adjacent to `demoBudgetJan`. -/
def demoBudgetFeb : Budget :=
  { id := "b2", userId := "U", amount := 100, periodType := .MONTHLY,
    startDate := msOfCivil ⟨2024, 2, 1⟩, endDate := msOfCivil ⟨2024, 2, 28⟩ }

/-- A store with the two adjacent active budgets of user `U`. -/
def demoOverlapState : State := { budgets := [demoBudgetJan, demoBudgetFeb] }

/-- A store holding only the active January budget of user `U`. -/
def demoJanState : State := { budgets := [demoBudgetJan] }

/-- An active budget of 500 over days 0–30 (for the over-budget scenario). -/
def demoBudget500 : Budget :=
  { id := "b", userId := "U", amount := 500, periodType := .MONTHLY,
    startDate := 0, endDate := 30 * msPerDay }

/-- A store where user `U` has spent 600 inside `demoBudget500`'s window. -/
def demoSpentState : State :=
  { expenses := [{ id := "e", amount := 600, categoryId := "c", userId := "U",
                   date := msPerDay }],
    budgets := [demoBudget500] }

/-- A store with 15 expenses of user `U` (for the pagination example). -/
def demoFifteenState : State :=
  { expenses := (List.range 15).map (fun i =>
      { id := toString i, amount := 1, categoryId := "c", userId := "U",
        date := Int.ofNat i }) }

def demoCat1 : Category := { id := "cat1", name := "Food", userId := some "U" }

def demoCat2 : Category := { id := "cat2", name := "Transport", userId := some "U" }

/-- A store with one 100 expense on `cat1` and one 50 expense on `cat2`
(for the category-statistics example). -/
def demoTwoCatState : State :=
  { categories := [demoCat1, demoCat2],
    expenses := [{ id := "e1", amount := 100, categoryId := "cat1", userId := "U",
                   date := 0 },
                 { id := "e2", amount := 50, categoryId := "cat2", userId := "U",
                   date := 0 }] }

/-! ## Shared lemmas -/

theorem foldl_add_amount (l : List Expense) (init : ℚ) :
    l.foldl (fun t e => t + e.amount) init = init + (l.map Expense.amount).sum := by
  induction l generalizing init with
  | nil => simp
  | cons e l ih => simp [List.foldl_cons, ih, add_assoc]

/-! ## C5: category deletion guards -/

/-- C5: `CategoriesService.remove` fails with Forbidden whenever the target
category is default-flagged, regardless of the caller; fails with Forbidden
when the category exists, is not default and is not owned by the caller;
fails with Conflict when at least one expense references it; and otherwise
deletes the row. -/
theorem C5_removeCategory_guards (id userId : String) (s : State) (c : Category)
    (hfind : s.categories.find? (fun x => x.id == id) = some c) :
    (c.isDefault = true → (removeCategory id userId s).1 = .error .forbidden) ∧
    (c.isDefault = false → c.userId ≠ some userId →
      (removeCategory id userId s).1 = .error .forbidden) ∧
    (c.isDefault = false → c.userId = some userId →
      0 < (s.expenses.filter (fun e => e.categoryId == id)).length →
      (removeCategory id userId s).1 = .error .conflict) ∧
    (c.isDefault = false → c.userId = some userId →
      (s.expenses.filter (fun e => e.categoryId == id)).length = 0 →
      removeCategory id userId s =
        (.ok (), { s with categories := s.categories.filter (fun x => !(x.id == id)) })) := by
  refine ⟨?_, ?_, ?_, ?_⟩
  · intro hdef
    simp [removeCategory, hfind, hdef]
  · intro hdef hown
    simp [removeCategory, hfind, hdef, hown]
  · intro hdef hown hcount
    simp [removeCategory, hfind, hdef, hown, hcount]
  · intro hdef hown hcount
    simp [removeCategory, hfind, hdef, hown, hcount]

/-- Concrete instances of C5: deleting the default category `c0` is
Forbidden even for its would-be owner; deleting `c1` as `bob` is Forbidden;
deleting `c1` as `alice` is Conflict while the expense `e1` references it,
and deletes the row once no expense does. -/
theorem C5_removeCategory_guards_witness :
    ((removeCategory "c0" "alice"
        { categories := [{ id := "c0", name := "Food", isDefault := true }] }).1 =
      .error .forbidden) ∧
    ((removeCategory "c1" "bob"
        { categories := [{ id := "c1", name := "Games", userId := some "alice" }] }).1 =
      .error .forbidden) ∧
    ((removeCategory "c1" "alice"
        { categories := [{ id := "c1", name := "Games", userId := some "alice" }],
          expenses := [{ id := "e1", amount := 5, categoryId := "c1",
                         userId := "alice", date := 0 }] }).1 =
      .error .conflict) ∧
    (removeCategory "c1" "alice"
        { categories := [{ id := "c1", name := "Games", userId := some "alice" }] } =
      (.ok (), { categories := [] })) := by
  refine ⟨?_, ?_, ?_, ?_⟩
  · exact (C5_removeCategory_guards "c0" "alice" _
      { id := "c0", name := "Food", isDefault := true } (by decide)).1 rfl
  · exact (C5_removeCategory_guards "c1" "bob" _
      { id := "c1", name := "Games", userId := some "alice" } (by decide)).2.1 rfl (by decide)
  · exact (C5_removeCategory_guards "c1" "alice" _
      { id := "c1", name := "Games", userId := some "alice" } (by decide)).2.2.1 rfl rfl
      (by decide)
  · exact (C5_removeCategory_guards "c1" "alice" _
      { id := "c1", name := "Games", userId := some "alice" } (by decide)).2.2.2 rfl rfl
      (by decide)

/-! ## C7: category name-collision scopes -/

/-- C7: `CategoriesService.create` rejects with Conflict exactly when some
category of the same name is owned by the caller or ownerless, while
`CategoriesService.update`'s rename check (for an owned, non-default target
and a JS-truthy new name) rejects with Conflict exactly when another of the
*caller's own* categories bears the new name — defaults are not consulted.
The closing conjunct contrasts the two scopes on one store: with a default
`Food` present, creating `Food` conflicts but renaming an owned category to
`Food` succeeds. -/
theorem C7_category_collision_scopes :
    (∀ (userId newId : String) (dto : CreateCategoryDto) (s : State),
      (createCategory userId dto newId s).1 = .error .conflict ↔
        ∃ c ∈ s.categories, c.name = dto.name ∧
          (c.userId = some userId ∨ c.userId = none)) ∧
    (∀ (id userId n : String) (dto : UpdateCategoryDto) (s : State) (c : Category),
      s.categories.find? (fun x => x.id == id) = some c →
      c.isDefault = false → c.userId = some userId →
      dto.name = some n → n ≠ "" →
      ((updateCategory id userId dto s).1 = .error .conflict ↔
        ∃ x ∈ s.categories, x.name = n ∧ x.userId = some userId ∧ x.id ≠ id)) ∧
    ((createCategory "alice" { name := "Food" } "c9"
        { categories := [{ id := "c0", name := "Food", isDefault := true },
                         { id := "c2", name := "Games", userId := some "alice" }] }).1 =
      .error .conflict ∧
     (updateCategory "c2" "alice" { name := some "Food" }
        { categories := [{ id := "c0", name := "Food", isDefault := true },
                         { id := "c2", name := "Games", userId := some "alice" }] }).1 =
      .ok { id := "c2", name := "Food", userId := some "alice" }) := by
  refine ⟨?_, ?_, by decide⟩
  · intro userId newId dto s
    constructor
    · intro h
      rcases hf : s.categories.find?
          (fun c => c.name == dto.name && (c.userId == some userId || c.userId == none)) with
        _ | c
      · simp [createCategory, hf] at h
      · have hp := List.find?_some hf
        simp only [Bool.and_eq_true, Bool.or_eq_true, beq_iff_eq] at hp
        exact ⟨c, List.mem_of_find?_eq_some hf, hp.1, hp.2⟩
    · rintro ⟨c, hmem, hname, howner⟩
      have hsome : (s.categories.find?
          (fun c => c.name == dto.name && (c.userId == some userId || c.userId == none))).isSome := by
        rw [List.find?_isSome]
        exact ⟨c, hmem, by simp [hname, howner]⟩
      rcases Option.isSome_iff_exists.mp hsome with ⟨c', hf⟩
      simp [createCategory, hf]
  · intro id userId n dto s c hfind hdef howner hname hne
    rcases hf : s.categories.find? (fun (x : Category) =>
        x.name == n && x.userId == some userId && !(x.id == id)) with _ | x
    · have hres : (updateCategory id userId dto s).1 = .ok (applyCategoryUpdate dto c) := by
        simp [updateCategory, hfind, hdef, howner, hname, hne, hf]
      rw [hres]
      constructor
      · intro h; cases h
      · rintro ⟨x, hmem, h1, h2, h3⟩
        have hnp := List.find?_eq_none.mp hf x hmem
        simp [h1, h2, h3] at hnp
    · have hres : (updateCategory id userId dto s).1 = .error .conflict := by
        simp [updateCategory, hfind, hdef, howner, hname, hne, hf]
      rw [hres]
      constructor
      · intro _
        have hp := List.find?_some hf
        simp only [Bool.and_eq_true, beq_iff_eq, Bool.not_eq_eq_eq_not,
          Bool.not_true, beq_eq_false_iff_ne] at hp
        exact ⟨x, List.mem_of_find?_eq_some hf, hp.1.1, hp.1.2, hp.2⟩
      · intro _; rfl

/-- Concrete instance of C7's quantified parts: on the contrast store, the
create-side Conflict has the default `Food` as its witness, and the rename
of `c2` to the fresh name `Movies` does not conflict. -/
theorem C7_category_collision_scopes_witness :
    ((createCategory "alice" { name := "Food" } "c9"
        { categories := [{ id := "c0", name := "Food", isDefault := true },
                         { id := "c2", name := "Games", userId := some "alice" }] }).1 =
      .error .conflict ↔
      ∃ c ∈ [({ id := "c0", name := "Food", isDefault := true } : Category),
             { id := "c2", name := "Games", userId := some "alice" }],
        c.name = "Food" ∧ (c.userId = some "alice" ∨ c.userId = none)) ∧
    ((updateCategory "c2" "alice" { name := some "Movies" }
        { categories := [{ id := "c0", name := "Food", isDefault := true },
                         { id := "c2", name := "Games", userId := some "alice" }] }).1 =
      .error .conflict ↔
      ∃ x ∈ [({ id := "c0", name := "Food", isDefault := true } : Category),
             { id := "c2", name := "Games", userId := some "alice" }],
        x.name = "Movies" ∧ x.userId = some "alice" ∧ x.id ≠ "c2") := by
  constructor
  · exact C7_category_collision_scopes.1 "alice" "c9" { name := "Food" } _
  · exact C7_category_collision_scopes.2.1 "c2" "alice" "Movies"
      { name := some "Movies" } _
      { id := "c2", name := "Games", userId := some "alice" }
      (by decide) rfl rfl rfl (by decide)

/-! ## C4: budget update validates only the merged date range -/

/-- C4: `BudgetsService.update` succeeds exactly when the budget exists, is
owned by the caller, and the merged `(new ∪ existing)` range satisfies
`start < end` — no condition on any other budget, so no overlap re-check;
it rejects with the invalid-date-range BadRequest exactly when the merged
`end ≤ start`.  The closing conjunct shows an update whose resulting
interval intersects another active budget of the same owner succeeding:
moving the February budget's start to Jan 15 overlaps the active January
budget, yet the update goes through. -/
theorem C4_updateBudget_validates_only_merged_range :
    (∀ (id userId : String) (dto : UpdateBudgetDto) (s : State),
      isErr (updateBudget id userId dto s) = false ↔
        ∃ b, s.budgets.find? (fun x => x.id == id) = some b ∧ b.userId = userId ∧
          (dto.startDate.map msOfCivil).getD b.startDate <
            (dto.endDate.map msOfCivil).getD b.endDate) ∧
    (∀ (id userId : String) (dto : UpdateBudgetDto) (s : State) (b : Budget),
      s.budgets.find? (fun x => x.id == id) = some b → b.userId = userId →
      ((updateBudget id userId dto s).1 = .error .badRequestInvalidDateRange ↔
        (dto.endDate.map msOfCivil).getD b.endDate ≤
          (dto.startDate.map msOfCivil).getD b.startDate)) ∧
    (isErr (updateBudget "b2" "U" { startDate := some ⟨2024, 1, 15⟩ }
        demoOverlapState) = false ∧
     demoBudgetJan.isActive = true ∧ demoBudgetFeb.isActive = true ∧
     demoBudgetJan.startDate ≤ msOfCivil ⟨2024, 1, 15⟩ ∧
     msOfCivil ⟨2024, 1, 15⟩ ≤ demoBudgetJan.endDate) := by
  refine ⟨?_, ?_, by decide⟩
  · intro id userId dto s
    rcases hf : s.budgets.find? (fun x => x.id == id) with _ | b
    · simp only [updateBudget, hf, isErr]
      constructor
      · intro h; cases h
      · rintro ⟨b, hb, -, -⟩; cases hb
    · constructor
      · intro h
        by_cases howner : b.userId = userId
        · by_cases hrange : (dto.endDate.map msOfCivil).getD b.endDate ≤
              (dto.startDate.map msOfCivil).getD b.startDate
          · simp [updateBudget, hf, howner, hrange, isErr] at h
          · exact ⟨b, hf, howner, not_le.mp hrange⟩
        · simp [updateBudget, hf, howner, isErr] at h
      · rintro ⟨b', hb', howner, hlt⟩
        rw [hf] at hb'
        obtain rfl : b' = b := (Option.some.inj hb').symm
        simp [updateBudget, hf, howner, isErr, not_le.mpr hlt]
  · intro id userId dto s b hf howner
    by_cases hrange : (dto.endDate.map msOfCivil).getD b.endDate ≤
        (dto.startDate.map msOfCivil).getD b.startDate
    · simp [updateBudget, hf, howner, hrange]
    · simp [updateBudget, hf, howner, hrange]

/-- Concrete instance of C4's quantified parts at the overlap scenario:
the success iff holds at the February budget, and moving its end before
its start is the invalid-date-range rejection. -/
theorem C4_updateBudget_validates_only_merged_range_witness :
    (isErr (updateBudget "b2" "U" { startDate := some ⟨2024, 1, 15⟩ }
        demoOverlapState) = false ↔
      ∃ b, demoOverlapState.budgets.find? (fun x => x.id == "b2") = some b ∧
        b.userId = "U" ∧
        ((some (Civil.mk 2024 1 15)).map msOfCivil).getD b.startDate <
          (Option.map msOfCivil none).getD b.endDate) ∧
    ((updateBudget "b2" "U" { endDate := some ⟨2024, 1, 15⟩ }
        demoOverlapState).1 = .error .badRequestInvalidDateRange ↔
      ((some (Civil.mk 2024 1 15)).map msOfCivil).getD demoBudgetFeb.endDate ≤
        (Option.map msOfCivil none).getD demoBudgetFeb.startDate) := by
  constructor
  · exact C4_updateBudget_validates_only_merged_range.1 "b2" "U"
      { startDate := some ⟨2024, 1, 15⟩ } demoOverlapState
  · exact C4_updateBudget_validates_only_merged_range.2.1 "b2" "U"
      { endDate := some ⟨2024, 1, 15⟩ } demoOverlapState demoBudgetFeb
      (by decide) rfl

/-! ## C9: validation reads precede the single write -/

theorem createBudget_frame (userId : String) (dto : CreateBudgetDto)
    (newId : String) (s : State) :
    (createBudget userId dto newId s).2 = s ∨
      isErr (createBudget userId dto newId s) = false := by
  simp only [createBudget]
  split
  · left; rfl
  · split
    · left; rfl
    · right; rfl

theorem updateBudget_frame (id userId : String) (dto : UpdateBudgetDto) (s : State) :
    (updateBudget id userId dto s).2 = s ∨
      isErr (updateBudget id userId dto s) = false := by
  simp only [updateBudget]
  split
  · left; rfl
  · split
    · split
      · left; rfl
      · right; rfl
    · left; rfl

theorem removeBudget_frame (id userId : String) (s : State) :
    (removeBudget id userId s).2 = s ∨ isErr (removeBudget id userId s) = false := by
  simp only [removeBudget]
  split
  · left; rfl
  · split
    · right; rfl
    · left; rfl

theorem createCategory_frame (userId : String) (dto : CreateCategoryDto)
    (newId : String) (s : State) :
    (createCategory userId dto newId s).2 = s ∨
      isErr (createCategory userId dto newId s) = false := by
  simp only [createCategory]
  split
  · left; rfl
  · right; rfl

theorem updateCategory_frame (id userId : String) (dto : UpdateCategoryDto) (s : State) :
    (updateCategory id userId dto s).2 = s ∨
      isErr (updateCategory id userId dto s) = false := by
  simp only [updateCategory]
  split
  · left; rfl
  · split
    · left; rfl
    · split
      · left; rfl
      · right; rfl

theorem removeCategory_frame (id userId : String) (s : State) :
    (removeCategory id userId s).2 = s ∨
      isErr (removeCategory id userId s) = false := by
  simp only [removeCategory]
  split
  · left; rfl
  · split
    · left; rfl
    · split
      · left; rfl
      · split
        · left; rfl
        · right; rfl

theorem createExpense_frame (userId : String) (dto : CreateExpenseDto)
    (newId : String) (now : Int) (s : State) :
    (createExpense userId dto newId now s).2 = s ∨
      isErr (createExpense userId dto newId now s) = false := by
  simp only [createExpense]
  split
  · left; rfl
  · right; rfl

theorem updateExpense_frame (id userId : String) (dto : UpdateExpenseDto) (s : State) :
    (updateExpense id userId dto s).2 = s ∨
      isErr (updateExpense id userId dto s) = false := by
  simp only [updateExpense]
  split
  · left; rfl
  · split
    · split
      · right; rfl
      · left; rfl
    · left; rfl

theorem removeExpense_frame (id userId : String) (s : State) :
    (removeExpense id userId s).2 = s ∨ isErr (removeExpense id userId s) = false := by
  simp only [removeExpense]
  split
  · left; rfl
  · split
    · right; rfl
    · left; rfl

/-- C9: every mutating operation of the three services does all its
validation reads before its single store write, so whenever it throws
(`isErr`), the store state it returns is the one it was given. -/
theorem C9_mutations_leave_store_unchanged_on_error :
    (∀ (userId : String) (dto : CreateBudgetDto) (newId : String) (s : State),
      isErr (createBudget userId dto newId s) = true →
      (createBudget userId dto newId s).2 = s) ∧
    (∀ (id userId : String) (dto : UpdateBudgetDto) (s : State),
      isErr (updateBudget id userId dto s) = true →
      (updateBudget id userId dto s).2 = s) ∧
    (∀ (id userId : String) (s : State),
      isErr (removeBudget id userId s) = true → (removeBudget id userId s).2 = s) ∧
    (∀ (userId : String) (dto : CreateCategoryDto) (newId : String) (s : State),
      isErr (createCategory userId dto newId s) = true →
      (createCategory userId dto newId s).2 = s) ∧
    (∀ (id userId : String) (dto : UpdateCategoryDto) (s : State),
      isErr (updateCategory id userId dto s) = true →
      (updateCategory id userId dto s).2 = s) ∧
    (∀ (id userId : String) (s : State),
      isErr (removeCategory id userId s) = true → (removeCategory id userId s).2 = s) ∧
    (∀ (userId : String) (dto : CreateExpenseDto) (newId : String) (now : Int) (s : State),
      isErr (createExpense userId dto newId now s) = true →
      (createExpense userId dto newId now s).2 = s) ∧
    (∀ (id userId : String) (dto : UpdateExpenseDto) (s : State),
      isErr (updateExpense id userId dto s) = true →
      (updateExpense id userId dto s).2 = s) ∧
    (∀ (id userId : String) (s : State),
      isErr (removeExpense id userId s) = true → (removeExpense id userId s).2 = s) := by
  refine ⟨?_, ?_, ?_, ?_, ?_, ?_, ?_, ?_, ?_⟩
  · intro userId dto newId s h
    rcases createBudget_frame userId dto newId s with h2 | h2
    · exact h2
    · rw [h] at h2; cases h2
  · intro id userId dto s h
    rcases updateBudget_frame id userId dto s with h2 | h2
    · exact h2
    · rw [h] at h2; cases h2
  · intro id userId s h
    rcases removeBudget_frame id userId s with h2 | h2
    · exact h2
    · rw [h] at h2; cases h2
  · intro userId dto newId s h
    rcases createCategory_frame userId dto newId s with h2 | h2
    · exact h2
    · rw [h] at h2; cases h2
  · intro id userId dto s h
    rcases updateCategory_frame id userId dto s with h2 | h2
    · exact h2
    · rw [h] at h2; cases h2
  · intro id userId s h
    rcases removeCategory_frame id userId s with h2 | h2
    · exact h2
    · rw [h] at h2; cases h2
  · intro userId dto newId now s h
    rcases createExpense_frame userId dto newId now s with h2 | h2
    · exact h2
    · rw [h] at h2; cases h2
  · intro id userId dto s h
    rcases updateExpense_frame id userId dto s with h2 | h2
    · exact h2
    · rw [h] at h2; cases h2
  · intro id userId s h
    rcases removeExpense_frame id userId s with h2 | h2
    · exact h2
    · rw [h] at h2; cases h2

/-- Concrete failing calls for each mutating operation: the returned store
equals the given one. -/
theorem C9_mutations_leave_store_unchanged_on_error_witness :
    ((createBudget "U"
        { amount := 1, periodType := .WEEKLY, startDate := ⟨2024, 1, 15⟩,
          endDate := some ⟨2024, 1, 15⟩ } "b9" {}).2 = {}) ∧
    ((updateBudget "nope" "U" {} {}).2 = {}) ∧
    ((removeBudget "nope" "U" {}).2 = {}) ∧
    ((createCategory "alice" { name := "Food" } "c9"
        { categories := [{ id := "c0", name := "Food", isDefault := true }] }).2 =
      { categories := [{ id := "c0", name := "Food", isDefault := true }] }) ∧
    ((updateCategory "nope" "alice" {} {}).2 = {}) ∧
    ((removeCategory "nope" "alice" {}).2 = {}) ∧
    ((createExpense "alice" { name := "x", amount := 1, categoryId := "nope" }
        "e9" 0 {}).2 = {}) ∧
    ((updateExpense "nope" "alice" {} {}).2 = {}) ∧
    ((removeExpense "nope" "alice" {}).2 = {}) := by
  refine ⟨?_, ?_, ?_, ?_, ?_, ?_, ?_, ?_, ?_⟩
  · exact C9_mutations_leave_store_unchanged_on_error.1 "U"
      { amount := 1, periodType := .WEEKLY, startDate := ⟨2024, 1, 15⟩,
        endDate := some ⟨2024, 1, 15⟩ } "b9" {} (by decide)
  · exact C9_mutations_leave_store_unchanged_on_error.2.1 "nope" "U" {} {} (by decide)
  · exact C9_mutations_leave_store_unchanged_on_error.2.2.1 "nope" "U" {} (by decide)
  · exact C9_mutations_leave_store_unchanged_on_error.2.2.2.1 "alice"
      { name := "Food" } "c9"
      { categories := [{ id := "c0", name := "Food", isDefault := true }] } (by decide)
  · exact C9_mutations_leave_store_unchanged_on_error.2.2.2.2.1 "nope" "alice" {} {}
      (by decide)
  · exact C9_mutations_leave_store_unchanged_on_error.2.2.2.2.2.1 "nope" "alice" {}
      (by decide)
  · exact C9_mutations_leave_store_unchanged_on_error.2.2.2.2.2.2.1 "alice"
      { name := "x", amount := 1, categoryId := "nope" } "e9" 0 {} (by decide)
  · exact C9_mutations_leave_store_unchanged_on_error.2.2.2.2.2.2.2.1 "nope" "alice" {} {}
      (by decide)
  · exact C9_mutations_leave_store_unchanged_on_error.2.2.2.2.2.2.2.2 "nope" "alice" {}
      (by decide)

/-! ## C1: budget creation overlap check -/

/-- For well-formed intervals, the create query's per-budget predicate holds
exactly when the stored interval and the new closed interval intersect. -/
theorem overlap_pred_iff (userId : String) (start endMs : Int) (b : Budget)
    (hb : b.startDate ≤ b.endDate) (hn : start ≤ endMs) :
    budgetOverlapPred userId start endMs b = true ↔
      (b.userId = userId ∧ b.isActive = true ∧
        b.startDate ≤ endMs ∧ start ≤ b.endDate) := by
  simp only [budgetOverlapPred, Bool.and_eq_true, Bool.or_eq_true, beq_iff_eq,
    decide_eq_true_eq]
  constructor
  · rintro ⟨⟨hu, hact⟩, hdisj⟩
    refine ⟨hu, hact, ?_⟩
    omega
  · rintro ⟨hu, hact, h1, h2⟩
    refine ⟨⟨hu, hact⟩, ?_⟩
    omega

/-- C1: the three-disjunct check of `BudgetsService.create` is inclusive
closed-interval intersection, and (for a valid new range over a store of
well-formed budgets) creation rejects with the overlap BadRequest exactly
when some active budget of the owner intersects the new interval.  On the
claim's concrete store — `U` owning the active `[2024-01-01, 2024-01-31]`
budget — creating `[2024-01-15, 2024-02-15]` is rejected with a BadRequest
and creating `[2024-02-01, 2024-02-28]` succeeds. -/
theorem C1_createBudget_overlap_iff_intersection :
    (∀ es ee ns ne : Int, es ≤ ee → ns ≤ ne →
      (((es ≤ ns ∧ ns ≤ ee) ∨ (es ≤ ne ∧ ne ≤ ee) ∨ (ns ≤ es ∧ ee ≤ ne)) ↔
        (es ≤ ne ∧ ns ≤ ee))) ∧
    (∀ (userId newId : String) (dto : CreateBudgetDto) (s : State),
      (∀ b ∈ s.budgets, b.startDate ≤ b.endDate) →
      msOfCivil dto.startDate < effectiveEndMs dto →
      ((createBudget userId dto newId s).1 = .error .badRequestOverlappingBudget ↔
        ∃ b ∈ s.budgets, b.userId = userId ∧ b.isActive = true ∧
          b.startDate ≤ effectiveEndMs dto ∧ msOfCivil dto.startDate ≤ b.endDate)) ∧
    ((createBudget "U"
        { amount := 1, periodType := .MONTHLY, startDate := ⟨2024, 1, 15⟩,
          endDate := some ⟨2024, 2, 15⟩ } "b9" demoJanState).1 =
      .error .badRequestOverlappingBudget ∧
     AppError.badRequestOverlappingBudget.isBadRequest = true ∧
     isErr (createBudget "U"
        { amount := 1, periodType := .MONTHLY, startDate := ⟨2024, 2, 1⟩,
          endDate := some ⟨2024, 2, 28⟩ } "b8" demoJanState) = false) := by
  refine ⟨?_, ?_, by decide⟩
  · intro es ee ns ne h1 h2
    omega
  · intro userId newId dto s hwf hlt
    rcases hf : s.budgets.find?
        (budgetOverlapPred userId (msOfCivil dto.startDate) (effectiveEndMs dto)) with _ | b
    · have hres : (createBudget userId dto newId s).1 ≠
          .error .badRequestOverlappingBudget := by
        simp [createBudget, not_le.mpr hlt, hf]
      constructor
      · intro h; exact absurd h hres
      · rintro ⟨b, hmem, hu, hact, h1, h2⟩
        have hnone := List.find?_eq_none.mp hf b hmem
        rw [overlap_pred_iff userId (msOfCivil dto.startDate) (effectiveEndMs dto) b
          (hwf b hmem) (le_of_lt hlt)] at hnone
        exact absurd ⟨hu, hact, h1, h2⟩ hnone
    · have hres : (createBudget userId dto newId s).1 =
          .error .badRequestOverlappingBudget := by
        simp [createBudget, not_le.mpr hlt, hf]
      rw [hres]
      have hp := List.find?_some hf
      rw [overlap_pred_iff userId (msOfCivil dto.startDate) (effectiveEndMs dto) b
        (hwf b (List.mem_of_find?_eq_some hf)) (le_of_lt hlt)] at hp
      constructor
      · intro _
        exact ⟨b, List.mem_of_find?_eq_some hf, hp⟩
      · intro _; rfl

/-- Concrete instance of C1's quantified parts: the interval equivalence at
the claim's numbers, and the overlap iff at the January store. -/
theorem C1_createBudget_overlap_iff_intersection_witness :
    (((msOfCivil ⟨2024, 1, 1⟩ ≤ msOfCivil ⟨2024, 1, 15⟩ ∧
        msOfCivil ⟨2024, 1, 15⟩ ≤ msOfCivil ⟨2024, 1, 31⟩) ∨
      (msOfCivil ⟨2024, 1, 1⟩ ≤ msOfCivil ⟨2024, 2, 15⟩ ∧
        msOfCivil ⟨2024, 2, 15⟩ ≤ msOfCivil ⟨2024, 1, 31⟩) ∨
      (msOfCivil ⟨2024, 1, 15⟩ ≤ msOfCivil ⟨2024, 1, 1⟩ ∧
        msOfCivil ⟨2024, 1, 31⟩ ≤ msOfCivil ⟨2024, 2, 15⟩)) ↔
      (msOfCivil ⟨2024, 1, 1⟩ ≤ msOfCivil ⟨2024, 2, 15⟩ ∧
        msOfCivil ⟨2024, 1, 15⟩ ≤ msOfCivil ⟨2024, 1, 31⟩)) ∧
    ((createBudget "U"
        { amount := 1, periodType := .MONTHLY, startDate := ⟨2024, 1, 15⟩,
          endDate := some ⟨2024, 2, 15⟩ } "b9" demoJanState).1 =
      .error .badRequestOverlappingBudget ↔
      ∃ b ∈ demoJanState.budgets, b.userId = "U" ∧ b.isActive = true ∧
        b.startDate ≤ effectiveEndMs
          { amount := 1, periodType := .MONTHLY, startDate := ⟨2024, 1, 15⟩,
            endDate := some ⟨2024, 2, 15⟩ } ∧
        msOfCivil ⟨2024, 1, 15⟩ ≤ b.endDate) := by
  constructor
  · exact C1_createBudget_overlap_iff_intersection.1 (msOfCivil ⟨2024, 1, 1⟩)
      (msOfCivil ⟨2024, 1, 31⟩) (msOfCivil ⟨2024, 1, 15⟩) (msOfCivil ⟨2024, 2, 15⟩)
      (by decide) (by decide)
  · exact C1_createBudget_overlap_iff_intersection.2.1 "U" "b9"
      { amount := 1, periodType := .MONTHLY, startDate := ⟨2024, 1, 15⟩,
        endDate := some ⟨2024, 2, 15⟩ } demoJanState
      (by decide) (by decide)

/-! ## C6: default end date and date-range check -/

/-- `daysFromCivil` is linear in its day argument. -/
theorem daysFromCivil_day_shift (y m d : Int) :
    daysFromCivil y m d = daysFromCivil y m 1 + (d - 1) := by
  simp only [daysFromCivil]
  ring

/-- C6: with `endDate` omitted, the computed end is `startDate + 7 days
− 1 day` for WEEKLY and, for MONTHLY, the same day-of-month in the next
month (JS `setMonth(getMonth()+1)` normalization) minus one day; concrete
calendar evaluations include the month-length overflow `2024-01-31 ↦
2024-03-01`; and creation rejects with the invalid-date-range BadRequest
exactly when the effective end is `≤` the start. -/
theorem C6_default_end_and_range_check :
    (∀ dto : CreateBudgetDto, dto.endDate = none → dto.periodType = .WEEKLY →
      effectiveEndMs dto = msOfCivil dto.startDate + 6 * msPerDay) ∧
    (∀ dto : CreateBudgetDto, dto.endDate = none → dto.periodType = .MONTHLY →
      effectiveEndMs dto =
        msPerDay * daysFromCivil (dto.startDate.year + dto.startDate.month / 12)
          (dto.startDate.month % 12 + 1) dto.startDate.day - msPerDay) ∧
    (defaultEndMs .WEEKLY ⟨2024, 1, 1⟩ = msOfCivil ⟨2024, 1, 7⟩ ∧
     defaultEndMs .MONTHLY ⟨2024, 1, 1⟩ = msOfCivil ⟨2024, 1, 31⟩ ∧
     defaultEndMs .MONTHLY ⟨2024, 1, 31⟩ = msOfCivil ⟨2024, 3, 1⟩ ∧
     defaultEndMs .MONTHLY ⟨2023, 1, 29⟩ = msOfCivil ⟨2023, 2, 28⟩) ∧
    (∀ (userId newId : String) (dto : CreateBudgetDto) (s : State),
      (createBudget userId dto newId s).1 = .error .badRequestInvalidDateRange ↔
        effectiveEndMs dto ≤ msOfCivil dto.startDate) := by
  refine ⟨?_, ?_, by decide, ?_⟩
  · intro dto hend hper
    simp only [effectiveEndMs, hend, defaultEndMs, hper]
    ring
  · intro dto hend hper
    simp only [effectiveEndMs, hend, defaultEndMs, hper, setMonthPlusOneMs, jsMakeDay,
      Int.sub_add_cancel]
    rw [daysFromCivil_day_shift (dto.startDate.year + dto.startDate.month / 12)
      (dto.startDate.month % 12 + 1) dto.startDate.day]
  · intro userId newId dto s
    by_cases hr : effectiveEndMs dto ≤ msOfCivil dto.startDate
    · simp [createBudget, hr]
    · rcases hf : s.budgets.find?
          (budgetOverlapPred userId (msOfCivil dto.startDate) (effectiveEndMs dto)) with _ | b
      · simp [createBudget, hr, hf]
      · simp [createBudget, hr, hf]

/-- Concrete instance of C6's quantified parts: the WEEKLY and MONTHLY
default ends from 2024-01-15, and the range-check iff for an explicit
empty range. -/
theorem C6_default_end_and_range_check_witness :
    (effectiveEndMs { amount := 1, periodType := .WEEKLY, startDate := ⟨2024, 1, 15⟩ } =
      msOfCivil ⟨2024, 1, 15⟩ + 6 * msPerDay) ∧
    (effectiveEndMs { amount := 1, periodType := .MONTHLY, startDate := ⟨2024, 1, 15⟩ } =
      msPerDay * daysFromCivil (2024 + 1 / 12) (1 % 12 + 1) 15 - msPerDay) ∧
    ((createBudget "U"
        { amount := 1, periodType := .WEEKLY, startDate := ⟨2024, 1, 15⟩,
          endDate := some ⟨2024, 1, 15⟩ } "b9" {}).1 =
      .error .badRequestInvalidDateRange ↔
      effectiveEndMs
        { amount := 1, periodType := .WEEKLY, startDate := ⟨2024, 1, 15⟩,
          endDate := some ⟨2024, 1, 15⟩ } ≤ msOfCivil ⟨2024, 1, 15⟩) := by
  refine ⟨?_, ?_, ?_⟩
  · exact C6_default_end_and_range_check.1
      { amount := 1, periodType := .WEEKLY, startDate := ⟨2024, 1, 15⟩ } rfl rfl
  · exact C6_default_end_and_range_check.2.1
      { amount := 1, periodType := .MONTHLY, startDate := ⟨2024, 1, 15⟩ } rfl rfl
  · exact C6_default_end_and_range_check.2.2.2 "U" "b9"
      { amount := 1, periodType := .WEEKLY, startDate := ⟨2024, 1, 15⟩,
        endDate := some ⟨2024, 1, 15⟩ } {}

/-! ## C2: budget consumption augmentation -/

/-- C2: when the store's first active budget of the owner containing `now`
is `b`, `findCurrent` returns `b` augmented with `spent` = the sum of the
owner's expense amounts dated within `[startDate, endDate]` (any category),
`remaining = amount − spent`, `percentage = round2(spent/amount×100)` with
`0` for a zero amount, and `daysRemaining = max 0 ⌈(endDate−now)/86400000⌉`;
`findCurrent` is `null` exactly when no active budget of the owner contains
`now`; `getStatus` applies the same augmentation to an owned budget id; and
the values are not clamped: with amount 500 and expenses summing to 600 the
result has `percentage = 120`, `remaining = −100`. -/
theorem C2_findCurrent_augmentation :
    (∀ (userId : String) (now : Int) (s : State) (b : Budget),
      s.budgets.find? (budgetCurrentPred userId now) = some b →
      ∃ st, findCurrent userId now s = some st ∧
        st.budget = b ∧
        st.spentAmount = ((s.expenses.filter
          (budgetExpensePred userId b.startDate b.endDate)).map Expense.amount).sum ∧
        st.remainingAmount = b.amount - st.spentAmount ∧
        (0 < b.amount → st.percentage = round2 (st.spentAmount / b.amount * 100)) ∧
        (b.amount = 0 → st.percentage = 0) ∧
        st.daysRemaining = max 0 ⌈((b.endDate - now : Int) : ℚ) / 86400000⌉) ∧
    (∀ (userId : String) (now : Int) (s : State),
      findCurrent userId now s = none ↔
        ¬ ∃ b ∈ s.budgets, b.userId = userId ∧ b.isActive = true ∧
          b.startDate ≤ now ∧ now ≤ b.endDate) ∧
    (∀ (id userId : String) (now : Int) (s : State) (b : Budget),
      s.budgets.find? (fun x => x.id == id && x.userId == userId) = some b →
      getStatus id userId now s = .ok (augmentBudget userId now s b)) ∧
    (∃ st, findCurrent "U" (10 * msPerDay) demoSpentState = some st ∧
      st.percentage = 120 ∧ st.remainingAmount = -100 ∧ st.isOverBudget = true) := by
  refine ⟨?_, ?_, ?_, ?_⟩
  · intro userId now s b hfind
    refine ⟨augmentBudget userId now s b, by simp [findCurrent, hfind], rfl, ?_, rfl,
      ?_, ?_, ?_⟩
    · simp [augmentBudget, foldl_add_amount]
    · intro h
      simp [augmentBudget, round2, h]
    · intro h
      norm_num [augmentBudget, round2, jsRound, h]
    · simp only [augmentBudget]
      norm_num
  · intro userId now s
    rw [findCurrent, Option.map_eq_none', List.find?_eq_none]
    simp only [budgetCurrentPred, Bool.and_eq_true, beq_iff_eq, decide_eq_true_eq]
    constructor
    · rintro h ⟨b, hmem, h1, h2, h3, h4⟩
      exact h b hmem ⟨⟨⟨h1, h2⟩, h3⟩, h4⟩
    · intro h b hmem hP
      rcases hP with ⟨⟨⟨h1, h2⟩, h3⟩, h4⟩
      exact h ⟨b, hmem, h1, h2, h3, h4⟩
  · intro id userId now s b hfind
    simp [getStatus, findOneBudget, hfind]
  · have hfilter : demoSpentState.expenses.filter
        (budgetExpensePred "U" demoBudget500.startDate demoBudget500.endDate) =
        demoSpentState.expenses := by decide
    have hfind : demoSpentState.budgets.find? (budgetCurrentPred "U" (10 * msPerDay)) =
        some demoBudget500 := by decide
    refine ⟨augmentBudget "U" (10 * msPerDay) demoSpentState demoBudget500,
      by simp [findCurrent, hfind], ?_, ?_, ?_⟩
    · simp only [augmentBudget, hfilter]
      norm_num [demoSpentState, demoBudget500, jsRound]
    · simp only [augmentBudget, hfilter]
      norm_num [demoSpentState, demoBudget500]
    · simp only [augmentBudget, hfilter]
      norm_num [demoSpentState, demoBudget500]

/-- Concrete instance of C2's quantified parts at the over-budget store:
the augmentation shape at `demoBudget500`, the none-iff at an empty store,
and `getStatus` on the owned id. -/
theorem C2_findCurrent_augmentation_witness :
    (∃ st, findCurrent "U" (10 * msPerDay) demoSpentState = some st ∧
      st.budget = demoBudget500 ∧
      st.spentAmount = ((demoSpentState.expenses.filter
        (budgetExpensePred "U" demoBudget500.startDate demoBudget500.endDate)).map
          Expense.amount).sum ∧
      st.remainingAmount = demoBudget500.amount - st.spentAmount ∧
      (0 < demoBudget500.amount →
        st.percentage = round2 (st.spentAmount / demoBudget500.amount * 100)) ∧
      (demoBudget500.amount = 0 → st.percentage = 0) ∧
      st.daysRemaining =
        max 0 ⌈((demoBudget500.endDate - 10 * msPerDay : Int) : ℚ) / 86400000⌉) ∧
    (findCurrent "U" 0 {} = none ↔
      ¬ ∃ b ∈ ([] : List Budget), b.userId = "U" ∧ b.isActive = true ∧
        b.startDate ≤ 0 ∧ 0 ≤ b.endDate) ∧
    (getStatus "b" "U" (10 * msPerDay) demoSpentState =
      .ok (augmentBudget "U" (10 * msPerDay) demoSpentState demoBudget500)) := by
  refine ⟨?_, ?_, ?_⟩
  · exact C2_findCurrent_augmentation.1 "U" (10 * msPerDay) demoSpentState
      demoBudget500 (by decide)
  · exact C2_findCurrent_augmentation.2.1 "U" 0 {}
  · exact C2_findCurrent_augmentation.2.2.1 "b" "U" (10 * msPerDay) demoSpentState
      demoBudget500 (by decide)

/-! ## C8: expense list pagination -/

/-- JS `Math.ceil(total / take)` on naturals, as the source's
`(total + take − 1) / take` pattern. -/
theorem nat_ceil_div (t k : Nat) (hk : 1 ≤ k) :
    (t + k - 1) / k = ⌈(t : ℚ) / (k : ℚ)⌉₊ := by
  have hkn : 0 < k := hk
  have hk0 : (0 : ℚ) < (k : ℚ) := by exact_mod_cast hk
  rw [← Nat.ceilDiv_eq_add_pred_div]
  refine le_antisymm ?_ ?_
  · rw [ceilDiv_le_iff_le_smul hkn, smul_eq_mul]
    have h1 : (t : ℚ) / k ≤ (⌈(t : ℚ) / (k : ℚ)⌉₊ : ℚ) := Nat.le_ceil _
    rw [div_le_iff₀ hk0] at h1
    have h2 : (t : ℚ) ≤ (k : ℚ) * (⌈(t : ℚ) / (k : ℚ)⌉₊ : ℚ) := by linarith
    exact_mod_cast h2
  · rw [Nat.ceil_le, div_le_iff₀ hk0]
    have h3 : t ≤ k • (t ⌈/⌉ k) := le_smul_ceilDiv hkn
    rw [smul_eq_mul, Nat.mul_comm] at h3
    exact_mod_cast h3

/-- C8: `ExpensesService.findAll` reports `total` = the count of *all*
records matching the filters (not just the returned page), `limit` = the
requested limit capped at the server maximum, and `totalPages` =
`⌈total / effective limit⌉`, which is `0` when `total = 0`. -/
theorem C8_findAllExpenses_pagination (userId : String) (q : QueryExpenseDto)
    (maxLimit : Nat) (s : State) (hq : 1 ≤ q.limit) (hm : 1 ≤ maxLimit) :
    (findAllExpenses userId q maxLimit s).2.total =
        (s.expenses.filter (expenseWherePred userId q)).length ∧
    (findAllExpenses userId q maxLimit s).2.limit = min q.limit maxLimit ∧
    (findAllExpenses userId q maxLimit s).2.totalPages =
        ⌈((s.expenses.filter (expenseWherePred userId q)).length : ℚ) /
          ((min q.limit maxLimit : Nat) : ℚ)⌉₊ ∧
    ((s.expenses.filter (expenseWherePred userId q)).length = 0 →
      (findAllExpenses userId q maxLimit s).2.totalPages = 0) := by
  have htake : 1 ≤ min q.limit maxLimit := le_min hq hm
  refine ⟨rfl, rfl, ?_, ?_⟩
  · exact nat_ceil_div _ _ htake
  · intro h
    show ((s.expenses.filter (expenseWherePred userId q)).length +
        min q.limit maxLimit - 1) / min q.limit maxLimit = 0
    rw [h, Nat.div_eq_of_lt (by omega)]

/-- Concrete instance of C8: 15 matching expenses with the default
`limit = 10` paginate to `total = 15`, `limit = 10`, `totalPages = 2`. -/
theorem C8_findAllExpenses_pagination_witness :
    (1 ≤ (({} : QueryExpenseDto)).limit ∧ 1 ≤ 50) ∧
    ((findAllExpenses "U" {} 50 demoFifteenState).2.total =
        (demoFifteenState.expenses.filter (expenseWherePred "U" {})).length ∧
     (findAllExpenses "U" {} 50 demoFifteenState).2.limit = min 10 50 ∧
     (findAllExpenses "U" {} 50 demoFifteenState).2.totalPages =
        ⌈((demoFifteenState.expenses.filter (expenseWherePred "U" {})).length : ℚ) /
          ((min 10 50 : Nat) : ℚ)⌉₊ ∧
     ((demoFifteenState.expenses.filter (expenseWherePred "U" {})).length = 0 →
       (findAllExpenses "U" {} 50 demoFifteenState).2.totalPages = 0)) ∧
    (findAllExpenses "U" {} 50 demoFifteenState).2.total = 15 ∧
    (findAllExpenses "U" {} 50 demoFifteenState).2.totalPages = 2 := by
  refine ⟨⟨by decide, by decide⟩, ?_, by decide, by decide⟩
  exact C8_findAllExpenses_pagination "U" {} 50 demoFifteenState (by decide) (by decide)

/-! ## C3: category statistics grouping -/

theorem snapshotOfKey_id (s : State) (cid : String) :
    (snapshotOfKey s cid).id = cid := by
  unfold snapshotOfKey
  split <;> rfl

theorem keyTotal_cons_self (e : Expense) (es : List Expense) :
    keyTotal e.categoryId (e :: es) = e.amount + keyTotal e.categoryId es := by
  simp [keyTotal, List.filter_cons]

theorem keyTotal_cons_ne (k : String) (e : Expense) (es : List Expense)
    (h : e.categoryId ≠ k) : keyTotal k (e :: es) = keyTotal k es := by
  simp [keyTotal, List.filter_cons, h]

theorem keyCount_cons_self (e : Expense) (es : List Expense) :
    keyCount e.categoryId (e :: es) = keyCount e.categoryId es + 1 := by
  simp [keyCount, List.filter_cons]

theorem keyCount_cons_ne (k : String) (e : Expense) (es : List Expense)
    (h : e.categoryId ≠ k) : keyCount k (e :: es) = keyCount k es := by
  simp [keyCount, List.filter_cons, h]

/-- Effect of one grouping step on the entry with key `k`. -/
theorem findBreakdown_insert (s : State) (acc : List CategoryBreakdown)
    (e : Expense) (k : String) :
    findBreakdown k (insertBreakdown s acc e) =
      if e.categoryId = k then
        (match findBreakdown k acc with
         | some x => some { x with total := x.total + e.amount, count := x.count + 1 }
         | none => some { category := snapshotOfKey s k, total := e.amount,
                          count := 1, percentage := 0 })
      else findBreakdown k acc := by
  unfold insertBreakdown
  by_cases hany : acc.any (fun x => x.category.id == e.categoryId)
  · rw [if_pos hany, findBreakdown, List.find?_map]
    have hcomp : ((fun (x : CategoryBreakdown) => x.category.id == k) ∘
        (fun x => if x.category.id == e.categoryId then
          { x with total := x.total + e.amount, count := x.count + 1 } else x)) =
        (fun (x : CategoryBreakdown) => x.category.id == k) := by
      funext x
      by_cases hid : x.category.id == e.categoryId <;> simp [Function.comp, hid]
    rw [hcomp]
    by_cases hk : e.categoryId = k
    · subst hk
      rcases hf : List.find? (fun x => x.category.id == e.categoryId) acc with _ | x
      · exfalso
        rcases List.any_eq_true.mp hany with ⟨y, hy, hpy⟩
        exact absurd hpy (by simpa using List.find?_eq_none.mp hf y hy)
      · rw [if_pos rfl]
        have hfb : findBreakdown e.categoryId acc = some x := hf
        rw [hfb, hf]
        simp [List.find?_some hf]
        intro hcon
        exact absurd (by simpa using List.find?_some hf) hcon
    · rw [if_neg hk]
      have hfb : findBreakdown k acc = List.find?
          (fun (x : CategoryBreakdown) => x.category.id == k) acc := rfl
      rw [hfb]
      rcases hf : List.find? (fun (x : CategoryBreakdown) => x.category.id == k) acc
        with _ | x
      · rfl
      · have hxid : x.category.id = k := by simpa using List.find?_some hf
        have hne : (x.category.id == e.categoryId) = false := by
          rw [hxid]
          exact beq_eq_false_iff_ne.mpr (fun hcon => hk hcon.symm)
        simp [hne]
        intro hcon
        rw [hxid] at hcon
        exact absurd hcon.symm hk
  · rw [if_neg hany]
    have hnone : List.find? (fun (x : CategoryBreakdown) =>
        x.category.id == e.categoryId) acc = none := by
      rw [List.find?_eq_none]
      intro x hx hpx
      exact hany (List.any_eq_true.mpr ⟨x, hx, hpx⟩)
    have happ : findBreakdown k (acc ++
        [{ category := snapshotOfKey s e.categoryId, total := e.amount, count := 1,
           percentage := 0 }]) =
        (findBreakdown k acc).or (findBreakdown k
          [{ category := snapshotOfKey s e.categoryId, total := e.amount, count := 1,
             percentage := 0 }]) := List.find?_append
    rw [happ]
    by_cases hk : e.categoryId = k
    · subst hk
      have hfb : findBreakdown e.categoryId acc = none := hnone
      rw [hfb]
      simp [findBreakdown, List.find?_cons, snapshotOfKey_id]
    · have h1 : findBreakdown k
          [{ category := snapshotOfKey s e.categoryId, total := e.amount, count := 1,
             percentage := 0 }] = none := by
        rw [findBreakdown, List.find?_eq_none]
        intro x hx
        rw [List.mem_singleton] at hx
        subst hx
        simp only [snapshotOfKey_id, beq_iff_eq]
        intro hcon
        exact hk hcon
      rw [h1, if_neg hk, Option.or_none]

/-- Effect of the whole grouping fold on the entry with key `k`. -/
theorem findBreakdown_foldl (s : State) (es : List Expense) (k : String) :
    ∀ acc : List CategoryBreakdown,
    findBreakdown k (es.foldl (insertBreakdown s) acc) =
      match findBreakdown k acc with
      | some x => some { x with total := x.total + keyTotal k es
                                count := x.count + keyCount k es }
      | none =>
        if es.any (fun e => e.categoryId == k) then
          some { category := snapshotOfKey s k
                 total := keyTotal k es
                 count := keyCount k es
                 percentage := 0 }
        else none := by
  induction es with
  | nil =>
    intro acc
    simp only [List.foldl_nil, keyTotal, keyCount, List.filter_nil, List.map_nil,
      List.sum_nil, List.length_nil, List.any_nil]
    rcases findBreakdown k acc with _ | x
    · rfl
    · simp
  | cons e es ih =>
    intro acc
    rw [List.foldl_cons, ih (insertBreakdown s acc e), findBreakdown_insert]
    by_cases hk : e.categoryId = k
    · subst hk
      rw [if_pos rfl]
      have hany : (e :: es).any (fun x => x.categoryId == e.categoryId) = true := by
        simp [List.any_cons]
      rcases hf : findBreakdown e.categoryId acc with _ | x
      · rw [hany, keyTotal_cons_self, keyCount_cons_self]
        simp [Nat.add_comm]
      · rw [keyTotal_cons_self, keyCount_cons_self]
        simp only [Option.some.injEq, CategoryBreakdown.mk.injEq]
        refine ⟨trivial, by ring, by omega, trivial⟩
    · rw [if_neg hk]
      rw [keyTotal_cons_ne k e es hk, keyCount_cons_ne k e es hk]
      have hany : (e :: es).any (fun x => x.categoryId == k) =
          es.any (fun x => x.categoryId == k) := by
        simp [List.any_cons, hk]
      rw [hany]

/-- One grouping step keeps the entry keys duplicate-free. -/
theorem keys_insertBreakdown (s : State) (acc : List CategoryBreakdown) (e : Expense)
    (h : (acc.map (fun x => x.category.id)).Nodup) :
    ((insertBreakdown s acc e).map (fun x => x.category.id)).Nodup := by
  unfold insertBreakdown
  by_cases hany : acc.any (fun x => x.category.id == e.categoryId)
  · rw [if_pos hany, List.map_map]
    have heq : ((fun (x : CategoryBreakdown) => x.category.id) ∘
        (fun x => if x.category.id == e.categoryId then
          { x with total := x.total + e.amount, count := x.count + 1 } else x)) =
        (fun (x : CategoryBreakdown) => x.category.id) := by
      funext x
      by_cases hid : x.category.id == e.categoryId <;> simp [Function.comp, hid]
    rw [heq]
    exact h
  · rw [if_neg hany, List.map_append, List.nodup_append]
    refine ⟨h, by simp, ?_⟩
    intro a ha hb
    simp only [List.map_cons, List.map_nil, List.mem_singleton, snapshotOfKey_id] at hb
    subst hb
    rcases List.mem_map.mp ha with ⟨x, hx, hxa⟩
    exact hany (List.any_eq_true.mpr ⟨x, hx, by simp [hxa]⟩)

/-- The grouping fold keeps the entry keys duplicate-free. -/
theorem keys_foldl_nodup (s : State) (es : List Expense) :
    ∀ acc : List CategoryBreakdown, (acc.map (fun x => x.category.id)).Nodup →
      ((es.foldl (insertBreakdown s) acc).map (fun x => x.category.id)).Nodup := by
  induction es with
  | nil => intro acc h; simpa using h
  | cons e es ih => intro acc h; exact ih _ (keys_insertBreakdown s acc e h)

/-- C3: `getCategoryStatistics` returns, for every category id occurring
among the matching expenses, exactly one entry (the ids are
duplicate-free), carrying that category's id, `total` = the sum of its
amounts, `count` = the number of its expenses, and `percentage` =
`round2(total/grandTotal×100)` guarded to `0` when the grand total is not
positive; the list is sorted by total descending; omitting both date
bounds means all expenses of the owner are included; and on the claim's
concrete store the result is `cat1 {100, 66.67}` then `cat2 {50, 33.33}`. -/
theorem C3_getCategoryStatistics_grouping :
    (∀ (userId : String) (sd ed : Option Int) (s : State) (k : String),
      (∃ e ∈ statsExpenses userId sd ed s, e.categoryId = k) →
      ∃ x ∈ getCategoryStatistics userId sd ed s,
        x.category.id = k ∧
        x.total = keyTotal k (statsExpenses userId sd ed s) ∧
        x.count = keyCount k (statsExpenses userId sd ed s) ∧
        x.percentage =
          (if 0 < ((statsExpenses userId sd ed s).map Expense.amount).sum then
            round2 (x.total / ((statsExpenses userId sd ed s).map Expense.amount).sum * 100)
          else 0)) ∧
    (∀ (userId : String) (sd ed : Option Int) (s : State),
      List.Pairwise (fun a b => b.total ≤ a.total)
        (getCategoryStatistics userId sd ed s)) ∧
    (∀ (userId : String) (sd ed : Option Int) (s : State),
      ((getCategoryStatistics userId sd ed s).map (fun x => x.category.id)).Nodup) ∧
    (∀ (userId : String) (s : State),
      statsExpenses userId none none s =
        s.expenses.filter (fun e => e.userId == userId)) ∧
    (getCategoryStatistics "U" none none demoTwoCatState =
      [{ category := { id := "cat1", name := "Food", icon := "", color := "" }
         total := 100
         count := 1
         percentage := 6667 / 100 },
       { category := { id := "cat2", name := "Transport", icon := "", color := "" }
         total := 50
         count := 1
         percentage := 3333 / 100 }]) := by
  refine ⟨?_, ?_, ?_, ?_, ?_⟩
  · intro userId sd ed s k hex
    have hany : (statsExpenses userId sd ed s).any (fun e => e.categoryId == k) = true := by
      rcases hex with ⟨e, he, hk⟩
      exact List.any_eq_true.mpr ⟨e, he, by simp [hk]⟩
    have hgrp2 : findBreakdown k
        ((statsExpenses userId sd ed s).foldl (insertBreakdown s) []) =
        if (statsExpenses userId sd ed s).any (fun e => e.categoryId == k) then
          some { category := snapshotOfKey s k
                 total := keyTotal k (statsExpenses userId sd ed s)
                 count := keyCount k (statsExpenses userId sd ed s)
                 percentage := 0 }
        else none := findBreakdown_foldl s (statsExpenses userId sd ed s) k []
    rw [hany, if_pos rfl] at hgrp2
    have hmem := List.mem_of_find?_eq_some hgrp2
    refine ⟨{ category := snapshotOfKey s k
              total := keyTotal k (statsExpenses userId sd ed s)
              count := keyCount k (statsExpenses userId sd ed s)
              percentage := if 0 < (statsExpenses userId sd ed s).foldl
                  (fun t e => t + e.amount) 0 then
                (jsRound (keyTotal k (statsExpenses userId sd ed s) /
                  ((statsExpenses userId sd ed s).foldl (fun t e => t + e.amount) 0) *
                  100 * 100) : ℚ) / 100
              else 0 }, ?_, snapshotOfKey_id s k, rfl, rfl, ?_⟩
    · simp only [getCategoryStatistics]
      rw [List.mem_mergeSort, List.mem_map]
      exact ⟨_, hmem, rfl⟩
    · show (if 0 < (statsExpenses userId sd ed s).foldl (fun t e => t + e.amount) 0 then
          (jsRound (keyTotal k (statsExpenses userId sd ed s) /
            ((statsExpenses userId sd ed s).foldl (fun t e => t + e.amount) 0) *
            100 * 100) : ℚ) / 100
        else 0) = _
      rw [foldl_add_amount, zero_add]
      rfl
  · intro userId sd ed s
    have htrans : ∀ (a b c : CategoryBreakdown),
        (fun (a b : CategoryBreakdown) => decide (b.total ≤ a.total)) a b = true →
        (fun (a b : CategoryBreakdown) => decide (b.total ≤ a.total)) b c = true →
        (fun (a b : CategoryBreakdown) => decide (b.total ≤ a.total)) a c = true := by
      intro a b c hab hbc
      simp only [decide_eq_true_eq] at *
      exact le_trans hbc hab
    have htot : ∀ (a b : CategoryBreakdown),
        ((fun (a b : CategoryBreakdown) => decide (b.total ≤ a.total)) a b ||
         (fun (a b : CategoryBreakdown) => decide (b.total ≤ a.total)) b a) = true := by
      intro a b
      simp only [Bool.or_eq_true, decide_eq_true_eq]
      exact le_total _ _
    simp only [getCategoryStatistics]
    exact (List.sorted_mergeSort htrans htot _).imp (fun h => by simpa using h)
  · intro userId sd ed s
    simp only [getCategoryStatistics]
    rw [List.Perm.nodup_iff ((List.mergeSort_perm _ _).map _)]
    rw [List.map_map]
    exact keys_foldl_nodup s _ [] (by simp)
  · intro userId s
    simp [statsExpenses, statsRangePred]
  · have h1 : statsExpenses "U" none none demoTwoCatState =
        demoTwoCatState.expenses := by decide
    have h2 : demoTwoCatState.expenses.foldl (insertBreakdown demoTwoCatState) [] =
        [{ category := { id := "cat1", name := "Food", icon := "", color := "" }
           total := 100
           count := 1
           percentage := 0 },
         { category := { id := "cat2", name := "Transport", icon := "", color := "" }
           total := 50
           count := 1
           percentage := 0 }] := by decide
    have h3 : demoTwoCatState.expenses.foldl (fun t e => t + e.amount) (0 : ℚ) = 150 := by
      simp only [demoTwoCatState, List.foldl_cons, List.foldl_nil]
      norm_num
    simp only [getCategoryStatistics, h1, h2, h3, List.map_cons, List.map_nil]
    refine Eq.trans (List.mergeSort_of_sorted ?_) ?_
    · refine List.pairwise_cons.mpr ⟨?_, List.pairwise_singleton _ _⟩
      intro b hb
      rw [List.mem_singleton] at hb
      subst hb
      norm_num
    · norm_num [jsRound]

/-- Concrete instance of C3's quantified parts at the two-category store:
the entry for `cat1` with its total, count and percentage, and the
sortedness, key-nodup and all-time-scope statements there. -/
theorem C3_getCategoryStatistics_grouping_witness :
    (∃ x ∈ getCategoryStatistics "U" none none demoTwoCatState,
      x.category.id = "cat1" ∧
      x.total = keyTotal "cat1" (statsExpenses "U" none none demoTwoCatState) ∧
      x.count = keyCount "cat1" (statsExpenses "U" none none demoTwoCatState) ∧
      x.percentage =
        (if 0 < ((statsExpenses "U" none none demoTwoCatState).map Expense.amount).sum then
          round2 (x.total /
            ((statsExpenses "U" none none demoTwoCatState).map Expense.amount).sum * 100)
        else 0)) ∧
    List.Pairwise (fun a b => b.total ≤ a.total)
      (getCategoryStatistics "U" none none demoTwoCatState) ∧
    ((getCategoryStatistics "U" none none demoTwoCatState).map
      (fun x => x.category.id)).Nodup ∧
    statsExpenses "U" none none demoTwoCatState =
      demoTwoCatState.expenses.filter (fun e => e.userId == "U") := by
  refine ⟨?_, ?_, ?_, ?_⟩
  · refine C3_getCategoryStatistics_grouping.1 "U" none none demoTwoCatState "cat1"
      ⟨{ id := "e1", amount := 100, categoryId := "cat1", userId := "U", date := 0 },
        by decide, rfl⟩
  · exact C3_getCategoryStatistics_grouping.2.1 "U" none none demoTwoCatState
  · exact C3_getCategoryStatistics_grouping.2.2.1 "U" none none demoTwoCatState
  · exact C3_getCategoryStatistics_grouping.2.2.2.1 "U" demoTwoCatState

end ExpensiveTracker
